import Mathlib

/-!
Shallow embedding of the task admission and cancellation scheduler of the
`youtui` repository (`src/app/taskmanager.rs`), together with the parts of
the server boundary it exchanges messages with (`src/app/server/api.rs` and
the `downloader`/`player` response enums as they are matched in
`taskmanager.rs`).

Modelling conventions:
* `TaskID(usize)` becomes `Nat`.
* The tokio `oneshot::Sender<KillRequest>` stored in a `Task` is modelled as
  `Option Unit` (`some ()` = the sender is still held, `none` = it was taken).
  Each admission creates exactly one fresh oneshot channel, owned by the task
  that `add_task` creates in the same call, so a kill signal sent on a task's
  sender is recorded simply as that task's id appearing in the list of sent
  signals that the mutating operations return.
* Opaque payload types (`String` queries, `ChannelID`, `VideoID`,
  `Arc<Vec<u8>>`, parsed artist/song data, `u8` volume, the downloader's
  progress-update payload) are modelled by carrier types with decidable
  equality; none of the scheduler's control flow inspects them.
* `todo!()` panics are modelled explicitly: `send_request` returns a
  `SendOutcome` that is either `ok` (with the new state, the new id, the list
  of kill signals sent and the dispatched wire-level request) or `panicked`
  (with the state and id at the moment the `todo!()` was reached), and the
  `process_player_msg` handler returns a `Step` that is either `ret` or
  `panic` (for the `ProgressUpdate` arm's `todo!()`).
-/

namespace Youtui

/-- `TaskID(usize)` from `src/app/taskmanager.rs`. -/
abbrev TaskID : Type := Nat

/-- `ListSongID(usize)` from `src/app/ui/structures.rs`. -/
abbrev ListSongID : Type := Nat

/-- `Percentage(pub u8)` from `src/app/ui/structures.rs`. -/
structure Percentage where
  val : Nat
deriving DecidableEq, Repr

/-- Carrier for `ChannelID<'static>` (opaque to the scheduler). -/
abbrev ChannelID : Type := String

/-- Carrier for `VideoID<'static>` (opaque to the scheduler). -/
abbrev VideoID : Type := String

/-- Carrier for `Arc<Vec<u8>>` song data (opaque to the scheduler). -/
abbrev SongData : Type := List Nat

/-- Carrier for `Vec<ytmapi_rs::parse::SearchResultArtist>` (opaque). -/
abbrev ArtistList : Type := List String

/-- Carrier for `Vec<Vec<TextRun>>` search suggestions (opaque). -/
abbrev SuggestionRuns : Type := List (List String)

/-- Carrier for `Vec<SongResult>` (opaque). -/
abbrev SongList : Type := List String

/-- Carrier for the downloader's progress-update payload (opaque). -/
abbrev UpdateType : Type := Nat

/-- `AppRequest` from `src/app/taskmanager.rs` (lines 45-56). -/
inductive AppRequest where
  | SearchArtists (artist : String)
  | GetSearchSuggestions (query : String)
  | GetArtistSongs (id : ChannelID)
  | Download (video : VideoID) (song : ListSongID)
  | IncreaseVolume (vol_inc : Int)
  | GetVolume
  | PlaySong (data : SongData) (song : ListSongID)
  | GetProgress (song : ListSongID)
  | Stop
  | PausePlay
deriving DecidableEq, Repr

/-- `RequestCategory` from `src/app/taskmanager.rs` (lines 76-85). -/
inductive RequestCategory where
  | Search
  | Get
  | Download
  | GetSearchSuggestions
  | GetVolume
  | ProgressUpdate
  | IncreaseVolume
  | Unkillable
deriving DecidableEq, Repr

/-- `AppRequest::category` from `src/app/taskmanager.rs` (lines 59-72). -/
def AppRequest.category : AppRequest → RequestCategory
  | .SearchArtists _ => .Search
  | .GetSearchSuggestions _ => .GetSearchSuggestions
  | .GetArtistSongs _ => .Get
  | .Download _ _ => .Download
  | .IncreaseVolume _ => .IncreaseVolume
  | .GetVolume => .GetVolume
  | .PlaySong _ _ => .Unkillable
  | .GetProgress _ => .ProgressUpdate
  | .Stop => .Unkillable
  | .PausePlay => .Unkillable

/-- `Task` registry record from `src/app/taskmanager.rs` (lines 37-42).
`kill : Option Unit` models `Option<oneshot::Sender<KillRequest>>`; the
sender held by the record is the one created for this task at admission. -/
structure Task where
  id : TaskID
  kill : Option Unit
  message : AppRequest
deriving DecidableEq, Repr

/-- The registry-relevant state of `TaskManager` from `src/app/taskmanager.rs`
(lines 18-26): the channel handles are external and not part of the model. -/
structure TM where
  cur_id : TaskID
  tasks : List Task
deriving DecidableEq, Repr

/-- The initial registry state established by `TaskManager::new`
(lines 98-106): `cur_id = TaskID::default() = 0`, `tasks = Vec::new()`. -/
def TM.new : TM := { cur_id := 0, tasks := [] }

/-- `api::Request` from `src/app/server/api.rs` (lines 23-28); the
`KillableTask` payload is represented by its `TaskID` (the receiver half of
the channel whose sender the registry holds for that id). -/
inductive ApiRequest where
  | GetSearchSuggestions (query : String) (task : TaskID)
  | NewArtistSearch (artist : String) (task : TaskID)
  | SearchSelectedArtist (id : ChannelID) (task : TaskID)
deriving DecidableEq, Repr

/-- `downloader::Request::DownloadSong` as constructed in
`spawn_download` (`src/app/taskmanager.rs` lines 202-219). -/
inductive DownloaderRequest where
  | DownloadSong (video : VideoID) (song : ListSongID) (task : TaskID)
deriving DecidableEq, Repr

/-- `player::Request` variants as constructed in `spawn_increase_volume` and
`spawn_get_volume` (`src/app/taskmanager.rs` lines 220-239). -/
inductive PlayerRequest where
  | IncreaseVolume (vol_inc : Int) (id : TaskID)
  | GetVolume (task : TaskID)
deriving DecidableEq, Repr

/-- `server::Request` wire-level request, as constructed in the `spawn_*`
methods of `src/app/taskmanager.rs`. -/
inductive ServerRequest where
  | Api (r : ApiRequest)
  | Downloader (r : DownloaderRequest)
  | Player (r : PlayerRequest)
deriving DecidableEq, Repr

/-- `api::Response` from `src/app/server/api.rs` (lines 29-38), with the
`AppendSongList` fields named as they are matched in
`process_api_msg` (`src/app/taskmanager.rs` lines 340-346). -/
inductive ApiResponse where
  | ReplaceArtistList (list : ArtistList) (id : TaskID)
  | SearchArtistError (id : TaskID)
  | ReplaceSearchSuggestions (runs : SuggestionRuns) (id : TaskID) (search : String)
  | SongListLoading (id : TaskID)
  | SongListLoaded (id : TaskID)
  | NoSongsFound (id : TaskID)
  | SongsFound (id : TaskID)
  | AppendSongList (song_list : SongList) (album : String) (year : String)
      (artist : String) (id : TaskID)
deriving DecidableEq, Repr

/-- `downloader::Response` as matched exhaustively in
`process_downloader_msg` (`src/app/taskmanager.rs` lines 359-368). -/
inductive DownloaderResponse where
  | SongProgressUpdate (update_type : UpdateType) (song_id : ListSongID) (task_id : TaskID)
deriving DecidableEq, Repr

/-- `player::Response` as matched exhaustively in
`process_player_msg` (`src/app/taskmanager.rs` lines 369-390). -/
inductive PlayerResponse where
  | DonePlaying (song_id : ListSongID)
  | Paused (song_id : ListSongID)
  | Playing (song_id : ListSongID)
  | Stopped
  | ProgressUpdate (perc : Nat) (song_id : ListSongID)
  | VolumeUpdate (vol : Nat) (id : TaskID)
deriving DecidableEq, Repr

/-- `server::Response` as matched in `process_messages`
(`src/app/taskmanager.rs` lines 275-292). -/
inductive ServerResponse where
  | Api (msg : ApiResponse)
  | Player (msg : PlayerResponse)
  | Downloader (msg : DownloaderResponse)
deriving DecidableEq, Repr

/-- `StateUpdateMessage`: its defining module (`src/app/statemanager.rs`) is
not among the provided sources; the variants are taken exactly from their
construction sites in `src/app/taskmanager.rs` (`process_api_msg`,
`process_downloader_msg`, `process_player_msg`). -/
inductive StateUpdateMessage where
  | ReplaceArtistList (list : ArtistList)
  | HandleSearchArtistError
  | ReplaceSearchSuggestions (runs : SuggestionRuns) (search : String)
  | HandleSongListLoading
  | HandleSongListLoaded
  | HandleNoSongsFound
  | HandleSongsFound
  | AppendSongList (song_list : SongList) (album : String) (year : String) (artist : String)
  | SetSongProgress (update_type : UpdateType) (song_id : ListSongID)
  | HandleDonePlaying (song_id : ListSongID)
  | SetToPaused (song_id : ListSongID)
  | SetToPlaying (song_id : ListSongID)
  | SetToStopped
  | SetVolume (p : Percentage)
deriving DecidableEq, Repr

/-- `TaskManager::add_task` from `src/app/taskmanager.rs` (lines 139-151):
increments `cur_id`, pushes a record holding the fresh kill sender and a
clone of the message, and returns the new `cur_id`. -/
def TM.add_task (tm : TM) (message : AppRequest) : TM × TaskID :=
  let newId := tm.cur_id + 1
  ({ cur_id := newId,
     tasks := tm.tasks ++ [{ id := newId, kill := some (), message := message }] },
   newId)

/-- `TaskManager::is_task_valid` from `src/app/taskmanager.rs`
(lines 240-242). -/
def TM.is_task_valid (tm : TM) (id : TaskID) : Bool :=
  tm.tasks.any (fun x => x.id == id)

/-- `TaskManager::kill_all_task_type_except_id` from `src/app/taskmanager.rs`
(lines 243-260): for every task of the category other than `id`, take its
kill sender (if still present) and send `KillRequest` on it, then retain only
tasks of other categories or with the given id.  The returned list records
the ids of the tasks on whose senders a `KillRequest` was sent. -/
def TM.kill_all_task_type_except_id (tm : TM) (request_category : RequestCategory)
    (id : TaskID) : TM × List TaskID :=
  let signalled := (tm.tasks.filter
      (fun x => x.message.category == request_category && x.id != id)).filterMap
      (fun x => x.kill.map (fun _ => x.id))
  ({ tm with
     tasks := tm.tasks.filter
       (fun x => x.message.category != request_category || x.id == id) },
   signalled)

/-- `TaskManager::block_all_task_type_except_id` from
`src/app/taskmanager.rs` (lines 263-270): retain only tasks of other
categories or with the given id; no signal is sent. -/
def TM.block_all_task_type_except_id (tm : TM) (request_category : RequestCategory)
    (id : TaskID) : TM :=
  { tm with
    tasks := tm.tasks.filter
      (fun x => x.message.category != request_category || x.id == id) }

/-- Outcome of `TaskManager::send_request`: `ok` carries the resulting
registry state, the new task's id, the ids signalled with `KillRequest`
during supersession, and the wire-level request dispatched to the server;
`panicked` records that a `todo!()` was reached, with the state and id
produced by the `add_task` call that precedes the dispatch `match`. -/
inductive SendOutcome where
  | ok (tm : TM) (id : TaskID) (signalled : List TaskID) (dispatched : ServerRequest)
  | panicked (tm : TM) (id : TaskID)
deriving DecidableEq, Repr

/-- `TaskManager::send_request` from `src/app/taskmanager.rs`
(lines 116-137), inlining the `spawn_*` helpers (lines 152-239) it
dispatches to.  A fresh oneshot channel is created, `add_task` registers the
task (before the `match`), and then the request's `spawn_*` method applies
the category's kill/block effects and dispatches the wire-level request; the
four unimplemented variants reach `todo!()` after `add_task`. -/
def TM.send_request (tm : TM) (request : AppRequest) : SendOutcome :=
  let p := tm.add_task request
  let tm1 := p.1
  let id := p.2
  match request with
  | .SearchArtists a =>
      let q := tm1.kill_all_task_type_except_id .Search id
      .ok q.1 id q.2 (.Api (.NewArtistSearch a id))
  | .GetSearchSuggestions query =>
      let q := tm1.kill_all_task_type_except_id .GetSearchSuggestions id
      .ok q.1 id q.2 (.Api (.GetSearchSuggestions query id))
  | .GetArtistSongs a_id =>
      let q := tm1.kill_all_task_type_except_id .Get id
      .ok q.1 id q.2 (.Api (.SearchSelectedArtist a_id id))
  | .Download v_id s_id =>
      .ok tm1 id [] (.Downloader (.DownloadSong v_id s_id id))
  | .IncreaseVolume i =>
      let tmB := tm1.block_all_task_type_except_id .IncreaseVolume id
      let q := tmB.kill_all_task_type_except_id .GetVolume id
      .ok q.1 id q.2 (.Player (.IncreaseVolume i id))
  | .GetVolume =>
      let tmB := tm1.block_all_task_type_except_id .IncreaseVolume id
      let q := tmB.kill_all_task_type_except_id .GetVolume id
      .ok q.1 id q.2 (.Player (.GetVolume id))
  | .PlaySong _ _ => .panicked tm1 id
  | .GetProgress _ => .panicked tm1 id
  | .Stop => .panicked tm1 id
  | .PausePlay => .panicked tm1 id

/-- `TaskManager::process_api_msg` from `src/app/taskmanager.rs`
(lines 296-358). -/
def TM.process_api_msg (tm : TM) (msg : ApiResponse) : Option StateUpdateMessage :=
  match msg with
  | .ReplaceArtistList list id =>
      if !tm.is_task_valid id then none
      else some (.ReplaceArtistList list)
  | .SearchArtistError id =>
      if !tm.is_task_valid id then none
      else some .HandleSearchArtistError
  | .ReplaceSearchSuggestions runs id search =>
      if !tm.is_task_valid id then none
      else some (.ReplaceSearchSuggestions runs search)
  | .SongListLoading id =>
      if !tm.is_task_valid id then none
      else some .HandleSongListLoading
  | .SongListLoaded id =>
      if !tm.is_task_valid id then none
      else some .HandleSongListLoaded
  | .NoSongsFound id =>
      if !tm.is_task_valid id then none
      else some .HandleNoSongsFound
  | .SongsFound id =>
      if !tm.is_task_valid id then none
      else some .HandleSongsFound
  | .AppendSongList song_list album year artist id =>
      if !tm.is_task_valid id then none
      else some (.AppendSongList song_list album year artist)

/-- `TaskManager::process_downloader_msg` from `src/app/taskmanager.rs`
(lines 359-368). -/
def TM.process_downloader_msg (tm : TM) (msg : DownloaderResponse) :
    Option StateUpdateMessage :=
  match msg with
  | .SongProgressUpdate update_type song_id task_id =>
      if !tm.is_task_valid task_id then none
      else some (.SetSongProgress update_type song_id)

/-- Result of a handler or of the drain loop that may hit a `todo!()`. -/
inductive Step (α : Type) where
  | panicStep
  | ret (a : α)
deriving DecidableEq, Repr

/-- `TaskManager::process_player_msg` from `src/app/taskmanager.rs`
(lines 369-390); the `ProgressUpdate` arm is `todo!()`. -/
def TM.process_player_msg (tm : TM) (msg : PlayerResponse) :
    Step (Option StateUpdateMessage) :=
  match msg with
  | .DonePlaying song_id => .ret (some (.HandleDonePlaying song_id))
  | .Paused song_id => .ret (some (.SetToPaused song_id))
  | .Playing song_id => .ret (some (.SetToPlaying song_id))
  | .Stopped => .ret (some .SetToStopped)
  | .ProgressUpdate _ _ => .panicStep
  | .VolumeUpdate vol id =>
      if !tm.is_task_valid id then .ret none
      else .ret (some (.SetVolume ⟨vol⟩))

/-- One iteration body of the drain loop in `process_messages`
(`src/app/taskmanager.rs` lines 275-292): dispatch on the response source. -/
def TM.process_one (tm : TM) (msg : ServerResponse) : Step (Option StateUpdateMessage) :=
  match msg with
  | .Api m => .ret (tm.process_api_msg m)
  | .Player m => tm.process_player_msg m
  | .Downloader m => tm.process_downloader_msg m |> .ret

/-- `TaskManager::process_messages` from `src/app/taskmanager.rs`
(lines 271-295): drain the buffered responses in order, collecting each
`Some` state update; `self` is threaded through the loop (the handlers read
it but never write it).  A `todo!()` reached mid-drain aborts the whole
call. -/
def TM.process_messages (tm : TM) : List ServerResponse → Step (TM × List StateUpdateMessage)
  | [] => .ret (tm, [])
  | msg :: rest =>
      match tm.process_one msg with
      | .panicStep => .panicStep
      | .ret none => tm.process_messages rest
      | .ret (some u) =>
          match tm.process_messages rest with
          | .panicStep => .panicStep
          | .ret (tmF, ups) => .ret (tmF, u :: ups)

/-- Modelled from the spec: the cancellable job runner `spawn_run_or_kill`
(its implementation lives in `src/app/server/mod.rs`, which is not among the
provided sources; `src/app/server/api.rs` only imports and calls it).
Spec 4.2: the runner races the unit of work against the cancellation
receiver; if cancellation is ready — in particular when both the work's
result and the cancellation signal are ready simultaneously — it aborts and
delivers no output, else it completes with the work's result. -/
def run_or_kill {α : Type} (cancelReady : Bool) (result : α) : Option α :=
  if cancelReady then none else some result

/-- States of the `TaskManager` reachable from `TaskManager::new` by the
operations its driving loop performs: admissions that complete without
hitting a `todo!()` (`send_request` returning normally), and the public
kill/block registry operations.  `process_messages` takes no registry step
(it only reads the registry, see `c8_drain_never_mutates`). -/
inductive Reachable : TM → Prop where
  | init : Reachable TM.new
  | send {tm tm' : TM} {r : AppRequest} {id : TaskID} {sigs : List TaskID}
      {d : ServerRequest} : Reachable tm →
      tm.send_request r = SendOutcome.ok tm' id sigs d → Reachable tm'
  | killStep {tm : TM} (rc : RequestCategory) (id : TaskID) : Reachable tm →
      Reachable (tm.kill_all_task_type_except_id rc id).1
  | blockStep {tm : TM} (rc : RequestCategory) (id : TaskID) : Reachable tm →
      Reachable (tm.block_all_task_type_except_id rc id)

/-- Registry invariants maintained by the `TaskManager` (spec section 3):
every registered id was allocated (is at most `cur_id`), every registered
task still holds its kill sender, no task of an `Unkillable` category is
tracked, and no id appears twice in the registry. -/
def TMinv (tm : TM) : Prop :=
  (∀ t ∈ tm.tasks, t.id ≤ tm.cur_id) ∧
  (∀ t ∈ tm.tasks, t.kill = some ()) ∧
  (∀ t ∈ tm.tasks, t.message.category ≠ RequestCategory.Unkillable) ∧
  (tm.tasks.map Task.id).Nodup

/-- An operation on the registry, for stating id-allocation over whole
operation sequences: an admission (`add_task`, which returns the fresh id)
or a kill/block supersession action. -/
inductive TMOp where
  | admitReq (r : AppRequest)
  | killOp (rc : RequestCategory) (id : TaskID)
  | blockOp (rc : RequestCategory) (id : TaskID)

/-- Apply one registry operation; an admission also yields the returned id. -/
def applyOp (tm : TM) : TMOp → TM × Option TaskID
  | .admitReq r => ((tm.add_task r).1, some (tm.add_task r).2)
  | .killOp rc id => ((tm.kill_all_task_type_except_id rc id).1, none)
  | .blockOp rc id => (tm.block_all_task_type_except_id rc id, none)

/-- Run a sequence of registry operations, collecting in order every id
returned by an `add_task` call. -/
def runOps (tm : TM) : List TMOp → TM × List TaskID
  | [] => (tm, [])
  | op :: rest =>
      let p := applyOp tm op
      let q := runOps p.1 rest
      (q.1, p.2.toList ++ q.2)

/-- Number of admissions (`add_task` calls) in an operation sequence. -/
def admitCount (ops : List TMOp) : Nat :=
  ops.countP (fun op => match op with | .admitReq _ => true | _ => false)

/-- The `TaskID` carried by each `api::Response` variant, read off the match
arms of `process_api_msg` (`src/app/taskmanager.rs` lines 296-358). -/
def ApiResponse.carriedId : ApiResponse → TaskID
  | .ReplaceArtistList _ id => id
  | .SearchArtistError id => id
  | .ReplaceSearchSuggestions _ id _ => id
  | .SongListLoading id => id
  | .SongListLoaded id => id
  | .NoSongsFound id => id
  | .SongsFound id => id
  | .AppendSongList _ _ _ _ id => id

/-- The registry holds no task of an `Unkillable` category (decidable form
of the spec's policy-table row for `Unkillable`: never tracked). -/
def unkillableFree (tm : TM) : Bool :=
  tm.tasks.all (fun t => t.message.category != RequestCategory.Unkillable)

/-- The `StateUpdateMessage` that `process_api_msg` produces for each
`api::Response` variant when the carried id is valid, read off the same
match arms. -/
def ApiResponse.stateMsg : ApiResponse → StateUpdateMessage
  | .ReplaceArtistList list _ => .ReplaceArtistList list
  | .SearchArtistError _ => .HandleSearchArtistError
  | .ReplaceSearchSuggestions runs _ search => .ReplaceSearchSuggestions runs search
  | .SongListLoading _ => .HandleSongListLoading
  | .SongListLoaded _ => .HandleSongListLoaded
  | .NoSongsFound _ => .HandleNoSongsFound
  | .SongsFound _ => .HandleSongsFound
  | .AppendSongList song_list album year artist _ =>
      .AppendSongList song_list album year artist

/-- `kill_all_task_type_except_id` unfolded: the retained registry and the
ids whose senders were signalled. -/
theorem kill_all_eq (tm : TM) (rc : RequestCategory) (id : TaskID) :
    tm.kill_all_task_type_except_id rc id =
      ({ cur_id := tm.cur_id,
         tasks := tm.tasks.filter (fun x => x.message.category != rc || x.id == id) },
       (tm.tasks.filter (fun x => x.message.category == rc && x.id != id)).filterMap
         (fun x => x.kill.map (fun _ => x.id))) := rfl

/-- `block_all_task_type_except_id` unfolded. -/
theorem block_all_eq (tm : TM) (rc : RequestCategory) (id : TaskID) :
    tm.block_all_task_type_except_id rc id =
      { cur_id := tm.cur_id,
        tasks := tm.tasks.filter (fun x => x.message.category != rc || x.id == id) } := rfl

/-- `add_task` unfolded. -/
theorem add_task_eq (tm : TM) (m : AppRequest) :
    tm.add_task m =
      ({ cur_id := tm.cur_id + 1,
         tasks := tm.tasks ++ [{ id := tm.cur_id + 1, kill := some (), message := m }] },
       tm.cur_id + 1) := rfl

/-- An already-allocated id is not the next id to be allocated. -/
theorem le_ne_succ {m n : Nat} (h : m ≤ n) : m ≠ n + 1 := by omega

/-- The first and second freshly allocated ids differ. -/
theorem succ_ne_succ2 (n : Nat) : n + 1 ≠ n + 2 := by omega

/-- The second and first freshly allocated ids differ. -/
theorem succ2_ne_succ (n : Nat) : n + 2 ≠ n + 1 := by omega

/-- The invariants hold in the initial state. -/
theorem inv_new : TMinv TM.new := by
  refine ⟨?_, ?_, ?_, ?_⟩ <;> simp [TMinv, TM.new]

/-- Restricting the registry to a filter preserves the invariants. -/
theorem inv_filter (tm : TM) (p : Task → Bool) (h : TMinv tm) :
    TMinv { cur_id := tm.cur_id, tasks := tm.tasks.filter p } := by
  obtain ⟨h1, h2, h3, h4⟩ := h
  refine ⟨?_, ?_, ?_, ?_⟩
  · intro t ht; exact h1 t (List.mem_filter.mp ht).1
  · intro t ht; exact h2 t (List.mem_filter.mp ht).1
  · intro t ht; exact h3 t (List.mem_filter.mp ht).1
  · exact List.Nodup.sublist (List.Sublist.map _ (List.filter_sublist _)) h4

/-- `kill_all_task_type_except_id` preserves the invariants. -/
theorem inv_kill (tm : TM) (rc : RequestCategory) (id : TaskID) (h : TMinv tm) :
    TMinv (tm.kill_all_task_type_except_id rc id).1 :=
  inv_filter tm _ h

/-- `block_all_task_type_except_id` preserves the invariants. -/
theorem inv_block (tm : TM) (rc : RequestCategory) (id : TaskID) (h : TMinv tm) :
    TMinv (tm.block_all_task_type_except_id rc id) :=
  inv_filter tm _ h

/-- `add_task` preserves the invariants, provided the admitted request is
not of an `Unkillable` category. -/
theorem inv_add_task (tm : TM) (m : AppRequest) (h : TMinv tm)
    (hm : m.category ≠ RequestCategory.Unkillable) : TMinv (tm.add_task m).1 := by
  obtain ⟨h1, h2, h3, h4⟩ := h
  refine ⟨?_, ?_, ?_, ?_⟩
  · intro t ht
    simp only [TM.add_task, List.mem_append, List.mem_singleton] at ht
    rcases ht with ht | rfl
    · exact Nat.le_trans (h1 t ht) (Nat.le_succ _)
    · exact Nat.le_refl _
  · intro t ht
    simp only [TM.add_task, List.mem_append, List.mem_singleton] at ht
    rcases ht with ht | rfl
    · exact h2 t ht
    · rfl
  · intro t ht
    simp only [TM.add_task, List.mem_append, List.mem_singleton] at ht
    rcases ht with ht | rfl
    · exact h3 t ht
    · exact hm
  · simp only [TM.add_task, List.map_append, List.map_cons, List.map_nil]
    rw [List.nodup_append]
    refine ⟨h4, List.nodup_singleton _, ?_⟩
    intro a ha hb
    simp only [List.mem_map] at ha
    obtain ⟨t, ht, rfl⟩ := ha
    simp only [List.mem_singleton] at hb
    have h5 : (t.id : Nat) = tm.cur_id + 1 := hb
    have h6 : (t.id : Nat) ≤ tm.cur_id := h1 t ht
    exact Nat.not_succ_le_self _ (h5 ▸ h6)

/-- A normally-completing `send_request` preserves the invariants and
allocates exactly the next id. -/
theorem inv_send {tm tm' : TM} {r : AppRequest} {id : TaskID}
    {sigs : List TaskID} {d : ServerRequest} (h : TMinv tm)
    (hs : tm.send_request r = SendOutcome.ok tm' id sigs d) :
    TMinv tm' ∧ tm'.cur_id = tm.cur_id + 1 ∧ id = tm.cur_id + 1 := by
  cases r <;> simp only [TM.send_request, SendOutcome.ok.injEq] at hs
  case SearchArtists a =>
    obtain ⟨htm, hid, _, _⟩ := hs
    subst htm hid
    exact ⟨inv_kill _ _ _ (inv_add_task tm _ h (by simp [AppRequest.category])), rfl, rfl⟩
  case GetSearchSuggestions q =>
    obtain ⟨htm, hid, _, _⟩ := hs
    subst htm hid
    exact ⟨inv_kill _ _ _ (inv_add_task tm _ h (by simp [AppRequest.category])), rfl, rfl⟩
  case GetArtistSongs a_id =>
    obtain ⟨htm, hid, _, _⟩ := hs
    subst htm hid
    exact ⟨inv_kill _ _ _ (inv_add_task tm _ h (by simp [AppRequest.category])), rfl, rfl⟩
  case Download v_id s_id =>
    obtain ⟨htm, hid, _, _⟩ := hs
    subst htm hid
    exact ⟨inv_add_task tm _ h (by simp [AppRequest.category]), rfl, rfl⟩
  case IncreaseVolume i =>
    obtain ⟨htm, hid, _, _⟩ := hs
    subst htm hid
    exact ⟨inv_kill _ _ _ (inv_block _ _ _ (inv_add_task tm _ h (by simp [AppRequest.category]))),
      rfl, rfl⟩
  case GetVolume =>
    obtain ⟨htm, hid, _, _⟩ := hs
    subst htm hid
    exact ⟨inv_kill _ _ _ (inv_block _ _ _ (inv_add_task tm _ h (by simp [AppRequest.category]))),
      rfl, rfl⟩
  case PlaySong data song => exact SendOutcome.noConfusion hs
  case GetProgress song => exact SendOutcome.noConfusion hs
  case Stop => exact SendOutcome.noConfusion hs
  case PausePlay => exact SendOutcome.noConfusion hs

/-- Every reachable `TaskManager` state satisfies the registry invariants. -/
theorem reachable_inv {tm : TM} (h : Reachable tm) : TMinv tm := by
  induction h with
  | init => exact inv_new
  | send _ hs ih => exact (inv_send ih hs).1
  | killStep rc id _ ih => exact inv_kill _ rc id ih
  | blockStep rc id _ ih => exact inv_block _ rc id ih

/-- If the drain loop returns normally, the registry state it hands back is
the one it started from. -/
theorem process_messages_ret_eq (tm : TM) : ∀ (msgs : List ServerResponse)
    {tmF : TM} {ups : List StateUpdateMessage},
    tm.process_messages msgs = Step.ret (tmF, ups) → tmF = tm := by
  intro msgs
  induction msgs with
  | nil =>
    intro tmF ups h
    simp only [TM.process_messages, Step.ret.injEq, Prod.mk.injEq] at h
    exact h.1.symm
  | cons msg rest ih =>
    intro tmF ups h
    simp only [TM.process_messages] at h
    split at h
    · exact Step.noConfusion h
    · exact ih h
    · split at h
      · exact Step.noConfusion h
      · rename_i heq
        simp only [Step.ret.injEq, Prod.mk.injEq] at h
        rw [← h.1]
        exact ih heq

/-- The ids returned by a sequence of registry operations starting at `tm`
are exactly the consecutive ids above `tm.cur_id`, one per admission. -/
theorem runOps_ids (tm : TM) (ops : List TMOp) :
    (runOps tm ops).2 = List.range' (tm.cur_id + 1) (admitCount ops) := by
  induction ops generalizing tm with
  | nil => simp [runOps, admitCount]
  | cons op rest ih =>
    cases op with
    | admitReq r =>
      have h1 : (runOps tm (TMOp.admitReq r :: rest)).2 =
          (tm.cur_id + 1) :: (runOps (tm.add_task r).1 rest).2 := rfl
      have h2 : admitCount (TMOp.admitReq r :: rest) = admitCount rest + 1 := by
        simp [admitCount, List.countP_cons]
      rw [h1, h2, ih]
      rfl
    | killOp rc id =>
      have h1 : (runOps tm (TMOp.killOp rc id :: rest)).2 =
          (runOps (tm.kill_all_task_type_except_id rc id).1 rest).2 := rfl
      have h2 : admitCount (TMOp.killOp rc id :: rest) = admitCount rest := by
        simp [admitCount, List.countP_cons]
      rw [h1, h2, ih]
      rfl
    | blockOp rc id =>
      have h1 : (runOps tm (TMOp.blockOp rc id :: rest)).2 =
          (runOps (tm.block_all_task_type_except_id rc id) rest).2 := rfl
      have h2 : admitCount (TMOp.blockOp rc id :: rest) = admitCount rest := by
        simp [admitCount, List.countP_cons]
      rw [h1, h2, ih]
      rfl

/-- C3 — TaskID allocation: over any sequence of admissions interleaved with
kill and block operations, starting from the initial state, the ids returned
by `add_task` are exactly `1, 2, 3, ...` (the first is `1`, each is one more
than the previous, and — in particular — none is ever returned twice). -/
theorem c3_taskid_allocation (ops : List TMOp) :
    (runOps TM.new ops).2 = List.range' 1 (admitCount ops) ∧
    ((runOps TM.new ops).2).Nodup := by
  have h := runOps_ids TM.new ops
  refine ⟨h, ?_⟩
  rw [h]
  exact List.nodup_range' _ _

/-- C7 — Untracked passthrough: the four global playback-engine transitions
(`DonePlaying`, `Paused`, `Playing`, `Stopped`), which carry no `TaskID`,
are converted by `process_player_msg` into the corresponding
`StateUpdateMessage` unconditionally, whatever the registry contents. -/
theorem c7_untracked_passthrough (tm : TM) (song_id : ListSongID) :
    tm.process_player_msg (.DonePlaying song_id) =
      Step.ret (some (.HandleDonePlaying song_id)) ∧
    tm.process_player_msg (.Paused song_id) = Step.ret (some (.SetToPaused song_id)) ∧
    tm.process_player_msg (.Playing song_id) = Step.ret (some (.SetToPlaying song_id)) ∧
    tm.process_player_msg .Stopped = Step.ret (some .SetToStopped) :=
  ⟨rfl, rfl, rfl, rfl⟩

/-- C9 — Cancellation wins ties in the cancellable job runner (modelled from
the spec, section 4.2): when the cancellation signal is ready — in
particular when the work's result raced to readiness at the same instant —
the runner aborts and the task delivers no output. -/
theorem c9_cancellation_wins_ties {α : Type} (result : α) :
    run_or_kill true result = none := rfl

/-- C10 — Unimplemented variants: for `PlaySong`, `GetProgress`, `Stop` and
`PausePlay`, `send_request` first inserts a new task record into the
registry via `add_task` and then reaches the `todo!()` panic; no wire-level
request is dispatched (only the `ok` outcome carries a dispatch). -/
theorem c10_unimplemented_variants (tm : TM) (data : SongData) (s p : ListSongID) :
    tm.send_request (.PlaySong data s) = SendOutcome.panicked
      ⟨tm.cur_id + 1, tm.tasks ++ [⟨tm.cur_id + 1, some (), .PlaySong data s⟩]⟩
      (tm.cur_id + 1) ∧
    tm.send_request (.GetProgress p) = SendOutcome.panicked
      ⟨tm.cur_id + 1, tm.tasks ++ [⟨tm.cur_id + 1, some (), .GetProgress p⟩]⟩
      (tm.cur_id + 1) ∧
    tm.send_request .Stop = SendOutcome.panicked
      ⟨tm.cur_id + 1, tm.tasks ++ [⟨tm.cur_id + 1, some (), .Stop⟩]⟩ (tm.cur_id + 1) ∧
    tm.send_request .PausePlay = SendOutcome.panicked
      ⟨tm.cur_id + 1, tm.tasks ++ [⟨tm.cur_id + 1, some (), .PausePlay⟩]⟩ (tm.cur_id + 1) :=
  ⟨rfl, rfl, rfl, rfl⟩

/-- C2 — Drain-time staleness filtering: each handler returns `none`
(silent discard) exactly when the carried `TaskID` is not in the registry,
and otherwise the corresponding `StateUpdateMessage` transform of the
response — for every `api::Response` variant, for the downloader's
`SongProgressUpdate`, and for the player's `VolumeUpdate`; accordingly,
`process_messages` emits for such a buffered response exactly the transform
when the id is registered and nothing when it is not. -/
theorem c2_drain_staleness_filtering (tm : TM) :
    (∀ r : ApiResponse, tm.process_api_msg r =
      if tm.is_task_valid r.carriedId then some r.stateMsg else none) ∧
    (∀ (u : UpdateType) (s : ListSongID) (i : TaskID),
      tm.process_downloader_msg (.SongProgressUpdate u s i) =
        if tm.is_task_valid i then some (.SetSongProgress u s) else none) ∧
    (∀ (v : Nat) (i : TaskID),
      tm.process_player_msg (.VolumeUpdate v i) =
        Step.ret (if tm.is_task_valid i then some (.SetVolume ⟨v⟩) else none)) ∧
    (∀ r : ApiResponse, tm.process_messages [ServerResponse.Api r] =
      Step.ret (tm, if tm.is_task_valid r.carriedId then [r.stateMsg] else [])) ∧
    (∀ (u : UpdateType) (s : ListSongID) (i : TaskID),
      tm.process_messages [ServerResponse.Downloader (.SongProgressUpdate u s i)] =
        Step.ret (tm, if tm.is_task_valid i then [.SetSongProgress u s] else [])) ∧
    (∀ (v : Nat) (i : TaskID),
      tm.process_messages [ServerResponse.Player (.VolumeUpdate v i)] =
        Step.ret (tm, if tm.is_task_valid i then [.SetVolume ⟨v⟩] else [])) := by
  refine ⟨?_, ?_, ?_, ?_, ?_, ?_⟩
  · intro r
    cases r <;>
      simp only [TM.process_api_msg, ApiResponse.carriedId, ApiResponse.stateMsg] <;>
      (cases htest : tm.is_task_valid _ <;> simp_all)
  · intro u s i
    cases htest : tm.is_task_valid i <;> simp [TM.process_downloader_msg, htest]
  · intro v i
    cases htest : tm.is_task_valid i <;> simp [TM.process_player_msg, htest]
  · intro r
    cases r <;>
      simp only [TM.process_messages, TM.process_one, TM.process_api_msg,
        ApiResponse.carriedId, ApiResponse.stateMsg] <;>
      (cases htest : tm.is_task_valid _ <;> simp_all)
  · intro u s i
    cases htest : tm.is_task_valid i <;>
      simp [TM.process_messages, TM.process_one, TM.process_downloader_msg, htest]
  · intro v i
    cases htest : tm.is_task_valid i <;>
      simp [TM.process_messages, TM.process_one, TM.process_player_msg, htest]

/-- C8 — Drain never mutates the registry: when `process_messages` returns,
the registry it hands back has the same tasks list and `cur_id` it started
with, and draining an empty response buffer returns an empty update batch. -/
theorem c8_drain_never_mutates (tm : TM) (msgs : List ServerResponse) (tmF : TM)
    (ups : List StateUpdateMessage)
    (h : tm.process_messages msgs = Step.ret (tmF, ups)) :
    tmF.tasks = tm.tasks ∧ tmF.cur_id = tm.cur_id ∧
    tm.process_messages [] = Step.ret (tm, []) := by
  rw [process_messages_ret_eq tm msgs h]
  exact ⟨rfl, rfl, rfl⟩

/-- Witness for `c8_drain_never_mutates`: a registry holding task 1 drains a
buffer with a valid response, a stale response and an untracked player event
without mutating itself. -/
theorem c8_drain_never_mutates_witness :
    (TM.mk 1 [Task.mk 1 (some ()) (AppRequest.SearchArtists "a")]).tasks =
      [Task.mk 1 (some ()) (AppRequest.SearchArtists "a")] ∧
    (TM.mk 1 [Task.mk 1 (some ()) (AppRequest.SearchArtists "a")]).cur_id = 1 ∧
    TM.process_messages (TM.mk 1 [Task.mk 1 (some ()) (AppRequest.SearchArtists "a")]) [] =
      Step.ret (TM.mk 1 [Task.mk 1 (some ()) (AppRequest.SearchArtists "a")], []) :=
  c8_drain_never_mutates
    (TM.mk 1 [Task.mk 1 (some ()) (AppRequest.SearchArtists "a")])
    [ServerResponse.Api (ApiResponse.SongListLoading 1),
     ServerResponse.Api (ApiResponse.SongListLoading 2),
     ServerResponse.Player (PlayerResponse.DonePlaying 5),
     ServerResponse.Downloader (DownloaderResponse.SongProgressUpdate 0 3 2)]
    (TM.mk 1 [Task.mk 1 (some ()) (AppRequest.SearchArtists "a")])
    [StateUpdateMessage.HandleSongListLoading, StateUpdateMessage.HandleDonePlaying 5]
    rfl

/-- C1 — Search supersession: if a task of category `Search` is in the
registry and another `SearchArtists` request is admitted (and completes
normally), the old task is no longer valid, the new one is valid, and a
`KillRequest` was sent on the old task's cancellation sender. -/
theorem c1_search_supersession (tm : TM) (hr : Reachable tm) (t : Task)
    (ht : t ∈ tm.tasks) (hcat : t.message.category = RequestCategory.Search)
    (s : String) (tm2 : TM) (id2 : TaskID) (sigs : List TaskID) (d : ServerRequest)
    (hsend : tm.send_request (.SearchArtists s) = SendOutcome.ok tm2 id2 sigs d) :
    tm2.is_task_valid t.id = false ∧ tm2.is_task_valid id2 = true ∧ t.id ∈ sigs := by
  obtain ⟨h1, h2, h3, h4⟩ := reachable_inv hr
  simp only [TM.send_request, add_task_eq, kill_all_eq, SendOutcome.ok.injEq] at hsend
  obtain ⟨htm, hid, hsg, _⟩ := hsend
  have htle : (t.id : Nat) ≤ tm.cur_id := h1 t ht
  have htne : t.id ≠ tm.cur_id + 1 := le_ne_succ htle
  subst hid
  refine ⟨?_, ?_, ?_⟩
  · rw [← htm]
    simp only [TM.is_task_valid, List.any_eq_false]
    intro x hx
    rw [List.mem_filter, List.mem_append, List.mem_singleton] at hx
    obtain ⟨hx1 | hx1, hp⟩ := hx
    · intro hbeq
      have hxid : x.id = t.id := by simpa using hbeq
      have hxt : x = t := List.inj_on_of_nodup_map h4 hx1 ht hxid
      subst hxt
      simp only [hcat, bne_self_eq_false, Bool.false_or, beq_iff_eq] at hp
      exact htne (hxid ▸ hp)
    · subst hx1
      simp only [beq_iff_eq]
      intro hE
      exact htne hE.symm
  · rw [← htm]
    simp only [TM.is_task_valid, List.any_eq_true]
    refine ⟨{ id := tm.cur_id + 1, kill := some (), message := .SearchArtists s }, ?_, by simp⟩
    rw [List.mem_filter]
    refine ⟨List.mem_append_right _ (List.mem_singleton_self _), by simp⟩
  · rw [← hsg]
    apply List.mem_filterMap.mpr
    refine ⟨t, ?_, ?_⟩
    · rw [List.mem_filter]
      refine ⟨List.mem_append_left _ ht, ?_⟩
      simp [hcat, htne]
    · rw [h2 t ht]
      rfl

/-- Witness for `c1_search_supersession`: from the initial state, admit
search "a" (task 1), then admit search "b" (task 2): task 1 becomes invalid
and is signalled, task 2 is valid. -/
theorem c1_search_supersession_witness :
    TM.is_task_valid
      (TM.mk 2 [Task.mk 2 (some ()) (AppRequest.SearchArtists "b")]) 1 = false ∧
    TM.is_task_valid
      (TM.mk 2 [Task.mk 2 (some ()) (AppRequest.SearchArtists "b")]) 2 = true ∧
    (1 : TaskID) ∈ [(1 : TaskID)] :=
  c1_search_supersession
    (TM.mk 1 [Task.mk 1 (some ()) (AppRequest.SearchArtists "a")])
    (Reachable.send Reachable.init
      (show TM.send_request TM.new (AppRequest.SearchArtists "a") =
        SendOutcome.ok (TM.mk 1 [Task.mk 1 (some ()) (AppRequest.SearchArtists "a")]) 1 []
          (ServerRequest.Api (ApiRequest.NewArtistSearch "a" 1)) from rfl))
    (Task.mk 1 (some ()) (AppRequest.SearchArtists "a"))
    (List.mem_singleton_self _) rfl "b"
    (TM.mk 2 [Task.mk 2 (some ()) (AppRequest.SearchArtists "b")]) 2 [(1 : TaskID)]
    (ServerRequest.Api (ApiRequest.NewArtistSearch "b" 2)) rfl

/-- C5 — Block without kill: admit an `IncreaseVolume` task, then admit a
`GetVolume` task: the first is no longer valid, the second is valid, and at
no point was a `KillRequest` sent on the first task's sender (its category
is only blocked, never killed). -/
theorem c5_block_without_kill (tm : TM) (hr : Reachable tm) (i : Int)
    (tm1 : TM) (id1 : TaskID) (sigs1 : List TaskID) (d1 : ServerRequest)
    (h1s : tm.send_request (.IncreaseVolume i) = SendOutcome.ok tm1 id1 sigs1 d1)
    (tm2 : TM) (id2 : TaskID) (sigs2 : List TaskID) (d2 : ServerRequest)
    (h2s : tm1.send_request .GetVolume = SendOutcome.ok tm2 id2 sigs2 d2) :
    tm2.is_task_valid id1 = false ∧ tm2.is_task_valid id2 = true ∧
    id1 ∉ sigs1 ∧ id1 ∉ sigs2 := by
  obtain ⟨h1, h2, h3, h4⟩ := reachable_inv hr
  simp only [TM.send_request, add_task_eq, block_all_eq, kill_all_eq,
    SendOutcome.ok.injEq] at h1s
  obtain ⟨htm1, hid1, hsg1, _⟩ := h1s
  subst htm1 hid1 hsg1
  simp only [TM.send_request, add_task_eq, block_all_eq, kill_all_eq,
    SendOutcome.ok.injEq] at h2s
  obtain ⟨htm2, hid2, hsg2, _⟩ := h2s
  subst htm2 hid2 hsg2
  refine ⟨?_, ?_, ?_, ?_⟩
  · simp only [TM.is_task_valid, List.any_eq_false]
    intro x hx
    have hx1 := List.mem_filter.mp hx
    have hx2 := List.mem_filter.mp hx1.1
    rcases List.mem_append.mp hx2.1 with hin | hin
    · have hy1 := List.mem_filter.mp hin
      have hy2 := List.mem_filter.mp hy1.1
      rcases List.mem_append.mp hy2.1 with hz | hz
      · intro hbeq
        have hxid : x.id = tm.cur_id + 1 := by simpa using hbeq
        exact le_ne_succ (h1 x hz) hxid
      · rw [List.mem_singleton] at hz
        subst hz
        have hpB2 := hx2.2
        simp only [AppRequest.category, bne_self_eq_false, Bool.false_or,
          beq_iff_eq] at hpB2
        exact absurd hpB2 (succ_ne_succ2 _)
    · rw [List.mem_singleton] at hin
      subst hin
      simp only [beq_iff_eq]
      exact fun hE => succ2_ne_succ _ hE
  · simp only [TM.is_task_valid, List.any_eq_true]
    refine ⟨{ id := tm.cur_id + 2, kill := some (), message := .GetVolume }, ?_, by simp⟩
    apply List.mem_filter.mpr
    refine ⟨List.mem_filter.mpr ⟨List.mem_append_right _ (List.mem_singleton_self _), ?_⟩, ?_⟩
    · simp only [Bool.or_eq_true]
      exact Or.inl (by decide)
    · simp only [Bool.or_eq_true]
      exact Or.inr (by simp)
  · intro hmem
    obtain ⟨x, hxin, hf⟩ := List.mem_filterMap.mp hmem
    cases hk : x.kill with
    | none => rw [hk] at hf; exact Option.noConfusion hf
    | some u =>
      rw [hk] at hf
      have hxid : x.id = tm.cur_id + 1 := by simpa using hf
      have hq1 := List.mem_filter.mp hxin
      have hq2 := List.mem_filter.mp hq1.1
      rcases List.mem_append.mp hq2.1 with hz | hz
      · exact le_ne_succ (h1 x hz) hxid
      · rw [List.mem_singleton] at hz
        subst hz
        have hq := hq1.2
        rw [Bool.and_eq_true] at hq
        have hqc := hq.1
        simp only [AppRequest.category] at hqc
        exact absurd hqc (by decide)
  · intro hmem
    obtain ⟨x, hxin, hf⟩ := List.mem_filterMap.mp hmem
    cases hk : x.kill with
    | none => rw [hk] at hf; exact Option.noConfusion hf
    | some u =>
      rw [hk] at hf
      have hxid : x.id = tm.cur_id + 1 := by simpa using hf
      have hq1 := List.mem_filter.mp hxin
      have hq2 := List.mem_filter.mp hq1.1
      rcases List.mem_append.mp hq2.1 with hz | hz
      · have hy1 := List.mem_filter.mp hz
        have hy2 := List.mem_filter.mp hy1.1
        rcases List.mem_append.mp hy2.1 with hw | hw
        · exact le_ne_succ (h1 x hw) hxid
        · rw [List.mem_singleton] at hw
          subst hw
          have hq := hq1.2
          rw [Bool.and_eq_true] at hq
          have hqc := hq.1
          simp only [AppRequest.category] at hqc
          exact absurd hqc (by decide)
      · rw [List.mem_singleton] at hz
        subst hz
        exact succ2_ne_succ _ hxid

/-- Witness for `c5_block_without_kill`: from the initial state, admit
`IncreaseVolume 5` (task 1), then `GetVolume` (task 2): task 1 invalid with
no signal ever sent to it, task 2 valid. -/
theorem c5_block_without_kill_witness :
    TM.is_task_valid (TM.mk 2 [Task.mk 2 (some ()) AppRequest.GetVolume]) 1 = false ∧
    TM.is_task_valid (TM.mk 2 [Task.mk 2 (some ()) AppRequest.GetVolume]) 2 = true ∧
    (1 : TaskID) ∉ ([] : List TaskID) ∧ (1 : TaskID) ∉ ([] : List TaskID) :=
  c5_block_without_kill TM.new Reachable.init 5
    (TM.mk 1 [Task.mk 1 (some ()) (AppRequest.IncreaseVolume 5)]) 1 []
    (ServerRequest.Player (PlayerRequest.IncreaseVolume 5 1)) rfl
    (TM.mk 2 [Task.mk 2 (some ()) AppRequest.GetVolume]) 2 []
    (ServerRequest.Player (PlayerRequest.GetVolume 2)) rfl

/-- C6 — Download coexistence: two `Download` admissions leave both tasks
valid, send no cancellation signals, and neither removes the other's
registry entry (both records end up in the registry unchanged). -/
theorem c6_download_coexistence (tm : TM) (v1 v2 : VideoID) (s1 s2 : ListSongID)
    (tm1 : TM) (id1 : TaskID) (sigs1 : List TaskID) (d1 : ServerRequest)
    (h1s : tm.send_request (.Download v1 s1) = SendOutcome.ok tm1 id1 sigs1 d1)
    (tm2 : TM) (id2 : TaskID) (sigs2 : List TaskID) (d2 : ServerRequest)
    (h2s : tm1.send_request (.Download v2 s2) = SendOutcome.ok tm2 id2 sigs2 d2) :
    tm2.is_task_valid id1 = true ∧ tm2.is_task_valid id2 = true ∧
    sigs1 = [] ∧ sigs2 = [] ∧
    tm2.tasks = tm.tasks ++
      [{ id := tm.cur_id + 1, kill := some (), message := .Download v1 s1 },
       { id := tm.cur_id + 2, kill := some (), message := .Download v2 s2 }] := by
  simp only [TM.send_request, add_task_eq, SendOutcome.ok.injEq] at h1s
  obtain ⟨htm1, hid1, hsg1, _⟩ := h1s
  subst htm1 hid1 hsg1
  simp only [TM.send_request, add_task_eq, SendOutcome.ok.injEq] at h2s
  obtain ⟨htm2, hid2, hsg2, _⟩ := h2s
  subst htm2 hid2 hsg2
  refine ⟨?_, ?_, rfl, rfl, ?_⟩
  · simp [TM.is_task_valid, List.any_append]
  · simp [TM.is_task_valid, List.any_append]
  · simp [List.append_assoc]

/-- Witness for `c6_download_coexistence`: two downloads admitted from the
initial state coexist as tasks 1 and 2. -/
theorem c6_download_coexistence_witness :
    TM.is_task_valid
      (TM.mk 2 [Task.mk 1 (some ()) (AppRequest.Download "v" 10),
                Task.mk 2 (some ()) (AppRequest.Download "w" 11)]) 1 = true ∧
    TM.is_task_valid
      (TM.mk 2 [Task.mk 1 (some ()) (AppRequest.Download "v" 10),
                Task.mk 2 (some ()) (AppRequest.Download "w" 11)]) 2 = true ∧
    ([] : List TaskID) = [] ∧ ([] : List TaskID) = [] ∧
    (TM.mk 2 [Task.mk 1 (some ()) (AppRequest.Download "v" 10),
              Task.mk 2 (some ()) (AppRequest.Download "w" 11)]).tasks =
      [] ++ [Task.mk 1 (some ()) (AppRequest.Download "v" 10),
             Task.mk 2 (some ()) (AppRequest.Download "w" 11)] :=
  c6_download_coexistence TM.new "v" "w" 10 11
    (TM.mk 1 [Task.mk 1 (some ()) (AppRequest.Download "v" 10)]) 1 []
    (ServerRequest.Downloader (DownloaderRequest.DownloadSong "v" 10 1)) rfl
    (TM.mk 2 [Task.mk 1 (some ()) (AppRequest.Download "v" 10),
              Task.mk 2 (some ()) (AppRequest.Download "w" 11)]) 2 []
    (ServerRequest.Downloader (DownloaderRequest.DownloadSong "w" 11 2)) rfl

/-- C4 counterexample: admitting `PlaySong` does insert a registry entry —
`send_request` on `PlaySong` calls `add_task` (registering a task whose
derived category is `Unkillable`) before reaching the `todo!()`. -/
theorem c4_counterexample :
    TM.send_request TM.new (AppRequest.PlaySong [] 0) =
      SendOutcome.panicked (TM.mk 1 [Task.mk 1 (some ()) (AppRequest.PlaySong [] 0)]) 1 ∧
    (AppRequest.PlaySong [] 0).category = RequestCategory.Unkillable ∧
    unkillableFree (TM.mk 1 [Task.mk 1 (some ()) (AppRequest.PlaySong [] 0)]) = false :=
  ⟨rfl, rfl, rfl⟩

/-- C4 (amended) — Unkillable requests are never tracked across admissions
that complete without panicking: in every state reachable through normally
completing admissions and kill/block operations, the registry holds no task
of an `Unkillable` category; and the untracked player responses (the global
playback transitions, which is how `Unkillable`-category activity reports
back) are passed through unconditionally. -/
theorem c4_amended_no_unkillable_tracked (tm : TM) (song_id : ListSongID)
    (hr : Reachable tm) :
    unkillableFree tm = true ∧
    tm.process_player_msg (.DonePlaying song_id) =
      Step.ret (some (.HandleDonePlaying song_id)) ∧
    tm.process_player_msg (.Paused song_id) = Step.ret (some (.SetToPaused song_id)) ∧
    tm.process_player_msg (.Playing song_id) = Step.ret (some (.SetToPlaying song_id)) ∧
    tm.process_player_msg .Stopped = Step.ret (some .SetToStopped) := by
  obtain ⟨h1, h2, h3, h4⟩ := reachable_inv hr
  refine ⟨?_, rfl, rfl, rfl, rfl⟩
  simp only [unkillableFree, List.all_eq_true]
  intro t ht
  simpa using h3 t ht

/-- Witness for `c4_amended_no_unkillable_tracked`: the state after admitting
a download from the initial state tracks no `Unkillable` task and passes the
global playback transitions through. -/
theorem c4_amended_no_unkillable_tracked_witness :
    unkillableFree (TM.mk 1 [Task.mk 1 (some ()) (AppRequest.Download "v" 3)]) = true ∧
    TM.process_player_msg (TM.mk 1 [Task.mk 1 (some ()) (AppRequest.Download "v" 3)])
      (PlayerResponse.DonePlaying 7) =
      Step.ret (some (StateUpdateMessage.HandleDonePlaying 7)) ∧
    TM.process_player_msg (TM.mk 1 [Task.mk 1 (some ()) (AppRequest.Download "v" 3)])
      (PlayerResponse.Paused 7) = Step.ret (some (StateUpdateMessage.SetToPaused 7)) ∧
    TM.process_player_msg (TM.mk 1 [Task.mk 1 (some ()) (AppRequest.Download "v" 3)])
      (PlayerResponse.Playing 7) = Step.ret (some (StateUpdateMessage.SetToPlaying 7)) ∧
    TM.process_player_msg (TM.mk 1 [Task.mk 1 (some ()) (AppRequest.Download "v" 3)])
      PlayerResponse.Stopped = Step.ret (some StateUpdateMessage.SetToStopped) :=
  c4_amended_no_unkillable_tracked
    (TM.mk 1 [Task.mk 1 (some ()) (AppRequest.Download "v" 3)]) 7
    (Reachable.send Reachable.init
      (show TM.send_request TM.new (AppRequest.Download "v" 3) =
        SendOutcome.ok (TM.mk 1 [Task.mk 1 (some ()) (AppRequest.Download "v" 3)]) 1 []
          (ServerRequest.Downloader (DownloaderRequest.DownloadSong "v" 3 1)) from rfl))

end Youtui
